import Mathlib

/-!
Shallow embedding of the FAT16 reader (src/src/fat16.cpp, src/include/fat16/fat16.h).

The image source (the read/seek hook pair of the C++ `Image`) is modelled as a
finite byte store with one cursor: `read(n)` at cursor `c` delivers
`min n (size - c)` bytes (0 once the cursor is at or past the end) and advances
the cursor by the delivered count; `seek(off, BEG)` sets the cursor.  All C++
`uint32_t` arithmetic is carried out on `Nat` with an explicit `% 2^32` where
the source stores into or passes a 32-bit value.  Records (`FundamentalEntry`,
`LongFileNameEntry`) are kept as their raw 32-byte little-endian slots, with
field accessors at the packed offsets of the header.
-/

namespace Fat16

/-- Two to the 32, the modulus of C++ uint32_t arithmetic. -/
def U32 : Nat := 4294967296

/-- A random-access byte image: a size and a byte at every offset (reduced mod 256 on read). -/
structure Img where
  size : Nat
  byte : Nat → Nat

/-- Number of bytes a read of `n` bytes at cursor `cur` actually delivers (fread semantics). -/
def readCount (img : Img) (cur n : Nat) : Nat :=
  if img.size ≤ cur then 0 else min n (img.size - cur)

/-- The bytes a read of `n` bytes at cursor `cur` delivers. -/
def readBytes (img : Img) (cur n : Nat) : List Nat :=
  (List.range (readCount img cur n)).map (fun i => img.byte (cur + i) % 256)

/-- Little-endian 16-bit value from two bytes. -/
def le16 (lo hi : Nat) : Nat := lo + 256 * hi

/-- uint32_t subtraction `a - b` (two's-complement wraparound), for `b ≤ 2^32`. -/
def sub32 (a b : Nat) : Nat := (a + U32 - b) % U32

/-- The boot-block fields the reader uses (header layout, each field a uint8 or uint16). -/
structure BootBlock where
  bytes_per_block : Nat
  num_blocks_per_allocation_unit : Nat
  num_reserved_blocks : Nat
  num_fat : Nat
  num_root_dirs : Nat
  num_blocks_per_fat : Nat
deriving DecidableEq

/-- BootBlock::fat_region_start: reserved blocks times bytes per block (uint32_t). -/
def fat_region_start (bb : BootBlock) : Nat :=
  (bb.num_reserved_blocks * bb.bytes_per_block) % U32

/-- BootBlock::root_directory_region_start: FAT start plus (num_fat * blocks_per_fat) * bytes_per_block. -/
def root_directory_region_start (bb : BootBlock) : Nat :=
  (fat_region_start bb + bb.num_fat * bb.num_blocks_per_fat * bb.bytes_per_block) % U32

/-- BootBlock::data_region_start: root directory start plus num_root_dirs * sizeof(FundamentalEntry). -/
def data_region_start (bb : BootBlock) : Nat :=
  (root_directory_region_start bb + bb.num_root_dirs * 32) % U32

/-- Image::bytes_per_cluster: bytes_per_block * num_blocks_per_allocation_unit. -/
def bytes_per_cluster (bb : BootBlock) : Nat :=
  (bb.bytes_per_block * bb.num_blocks_per_allocation_unit) % U32

/-- Image::get_successor_cluster.  Saves the cursor, seeks to
`fat_region_start + target * 2`, reads two bytes.  On a short read it returns 0
with the cursor left where the failed read stopped (the early return at line 72
skips the restoring seek); otherwise it returns the little-endian value and
restores the saved cursor.  Result: (returned ClusterID, cursor after the call). -/
def get_successor_cluster (img : Img) (bb : BootBlock) (cursor target : Nat) : Nat × Nat :=
  let pos := (fat_region_start bb + target * 2) % U32
  let cnt := readCount img pos 2
  if cnt = 2 then
    (le16 ((readBytes img pos 2).getD 0 0) ((readBytes img pos 2).getD 1 0), cursor)
  else
    (0, pos + cnt)

/-- The value component of the FAT lookup, which does not depend on the incoming cursor. -/
def succ_val (img : Img) (bb : BootBlock) (target : Nat) : Nat :=
  let pos := (fat_region_start bb + target * 2) % U32
  if readCount img pos 2 = 2 then
    le16 ((readBytes img pos 2).getD 0 0) ((readBytes img pos 2).getD 1 0)
  else 0

/-- total_block_to_read in Image::read_from_cluster: (size + bytes_per_block - 1) / bytes_per_block
in uint32_t (the - 1 wraps when size and bytes_per_block are both 0). -/
def total_block_to_read (bb : BootBlock) (size : Nat) : Nat :=
  ((size + bb.bytes_per_block + U32 - 1) % U32) / bb.bytes_per_block

/-- total_cluster_to_read in Image::read_from_cluster. -/
def total_cluster_to_read (bb : BootBlock) (size : Nat) : Nat :=
  ((total_block_to_read bb size + bb.num_blocks_per_allocation_unit + U32 - 1) % U32) /
    bb.num_blocks_per_allocation_unit

/-- The while-loop of lines 98-101: walk the chain `n` times from (cluster, cursor). -/
def walkChain (img : Img) (bb : BootBlock) : Nat → Nat × Nat → Nat × Nat
  | 0, s => s
  | n + 1, s => walkChain img bb n (get_successor_cluster img bb s.2 s.1)

/-- The for-loop of lines 112-125 of Image::read_from_cluster, run for `fuel`
iterations (the loop bound `total_cluster_to_read`; the uint8_t loop counter
of the source additionally wraps at 256, so the embedding is faithful for
bounds up to 255).  Each iteration seeks to
`osda + (cluster - 2) * bytes_per_cluster` (uint32_t arithmetic, `osda`
already contains `data_region_start + offset_in_that_cluster`), requests
`min bytes_per_cluster left` bytes, ignores the delivered count for the
running total, and fetches the successor cluster.  Returns
(bytes left unrequested, final cursor, trace of (seek position, requested, delivered)). -/
def rfcLoop (img : Img) (bb : BootBlock) (osda : Nat) :
    Nat → Nat → Nat → Nat → Nat × Nat × List (Nat × Nat × Nat)
  | 0, _cluster, left, cur => (left, cur, [])
  | n + 1, cluster, left, _cursor =>
    let pos := (osda + sub32 cluster 2 * bytes_per_cluster bb) % U32
    let take := min (bytes_per_cluster bb) left
    let act := readCount img pos take
    let s := get_successor_cluster img bb (pos + act) cluster
    let r := rfcLoop img bb osda n s.1 (left - take) s.2
    (r.1, r.2.1, (pos, take, act) :: r.2.2)

/-- Image::read_from_cluster (lines 83-129).  `cursor` is the image cursor at
entry.  Returns (returned byte count, cursor after the call, trace of the
data reads issued at line 118 as (seek position, requested, delivered)); the
FAT lookups of get_successor_cluster are threaded through the cursor but not
recorded in the trace. -/
def read_from_cluster (img : Img) (bb : BootBlock)
    (cursor offset starting_cluster size : Nat) : Nat × Nat × List (Nat × Nat × Nat) :=
  let tc := total_cluster_to_read bb size
  let fscd := offset / bb.bytes_per_block / bb.num_blocks_per_allocation_unit
  let co := offset % bytes_per_cluster bb
  let w := walkChain img bb fscd (starting_cluster, cursor)
  let osda := (data_region_start bb + co) % U32
  let r := rfcLoop img bb osda tc w.1 size osda
  (size - r.1, r.2.1, r.2.2)

/-- Entry (the cpp version): iteration cursor, root cluster, LFN accumulator and the
most recent fundamental record, the two record kinds kept as raw 32-byte slots. -/
structure Entry where
  cursor_record : Nat
  root : Nat
  extended_entries : List (List Nat)
  entry : List Nat
deriving DecidableEq

/-- Attribute byte of a raw 32-byte directory slot (packed offset 11). -/
def slotAttrib (r : List Nat) : Nat := r.getD 11 0

/-- The 16-bit padding word of a raw LFN slot (packed offset 26, little-endian). -/
def slotPadding (r : List Nat) : Nat := le16 (r.getD 26 0) (r.getD 27 0)

/-- Bytes deposited into a caller buffer by the reads of a read_from_cluster trace:
each read contributes its delivered bytes and the buffer pointer then advances by
the requested count, so an undelivered tail is indeterminate stack memory; the
embedding models those indeterminate bytes as 0 (no theorem below depends on them). -/
def gatherBytes (img : Img) (tr : List (Nat × Nat × Nat)) : List Nat :=
  (tr.map (fun e => readBytes img e.1 e.2.2 ++ List.replicate (e.2.1 - e.2.2) 0)).flatten

/-- A 32-byte directory-slot read inside Image::get_next_entry: through
read_from_cluster when iterating a subdirectory (root nonzero, lines 147 and 170),
directly through read_func otherwise (lines 151 and 174).  Returns
(slot bytes, count the source reported, cursor after the read). -/
def readRecord (img : Img) (bb : BootBlock) (root cr cur : Nat) : List Nat × Nat × Nat :=
  if root ≠ 0 then
    let r := read_from_cluster img bb cur cr root 32
    (gatherBytes img r.2.2, r.1, r.2.1)
  else
    (readBytes img cur 32, readCount img cur 32, cur + readCount img cur 32)

/-- The do-while loop of lines 145-166 of Image::get_next_entry.  One iteration
reads a 32-byte slot; a short read ends the call (first component false); a slot
with attribute 0x0F and zero padding word is appended to the accumulator and
cursor_record advances by 32, looping while cursor_record / 32 differs from
num_root_dirs; any other slot ends the loop, seeking back to
root_directory_region_start + cursor_record in the root case.  `fuel` is
num_root_dirs - cursor_record / 32 at entry, which the loop can never exhaust
because cursor_record / 32 grows by exactly 1 per iteration and the loop stops
when it reaches num_root_dirs.  Returns (read ok, cursor_record, image cursor,
accumulator). -/
def lfnLoop (img : Img) (bb : BootBlock) (rds root : Nat) :
    Nat → Nat → Nat → List (List Nat) → Bool × Nat × Nat × List (List Nat)
  | 0, cr, cur, acc => (true, cr, cur, acc)
  | fuel + 1, cr, cur, acc =>
    let r := readRecord img bb root cr cur
    if r.2.1 ≠ 32 then (false, cr, r.2.2, acc)
    else if slotAttrib r.1 = 15 ∧ slotPadding r.1 = 0 then
      if (cr + 32) / 32 ≠ bb.num_root_dirs then
        lfnLoop img bb rds root fuel (cr + 32) r.2.2 (acc ++ [r.1])
      else (true, cr + 32, r.2.2, acc ++ [r.1])
    else (true, cr, (if root = 0 then (rds + cr) % U32 else r.2.2), acc)

/-- Image::get_next_entry (lines 131-181).  Returns false immediately when
cursor_record / 32 is at least num_root_dirs (line 132, applied before the root
field is consulted); otherwise clears the accumulator, seeks to the root
directory position, runs the LFN loop, then reads the fundamental record and
advances cursor_record by 32.  Result: (returned bool, entry after the call,
image cursor after the call). -/
def get_next_entry (img : Img) (bb : BootBlock) (e : Entry) (cursor : Nat) :
    Bool × Entry × Nat :=
  if bb.num_root_dirs ≤ e.cursor_record / 32 then (false, e, cursor)
  else
    let rds := root_directory_region_start bb
    let cur0 := (rds + e.cursor_record) % U32
    let fuel := bb.num_root_dirs - e.cursor_record / 32
    let l := lfnLoop img bb rds e.root fuel e.cursor_record cur0 []
    if l.1 = false then
      (false, { e with cursor_record := l.2.1, extended_entries := l.2.2.2 }, l.2.2.1)
    else
      let r := readRecord img bb e.root l.2.1 l.2.2.1
      if r.2.1 ≠ 32 then
        (false, { e with cursor_record := l.2.1, extended_entries := l.2.2.2 }, r.2.2)
      else
        (true,
          { cursor_record := l.2.1 + 32, root := e.root,
            extended_entries := l.2.2.2, entry := r.1 }, r.2.2)

/-- Image::get_first_entry_dir (lines 183-192): refuse when the DIRECTORY
attribute bit (0x10) is clear, otherwise hand back a fresh cursor rooted at the
starting cluster of the parent record (packed offset 26, little-endian). -/
def get_first_entry_dir (parent first : Entry) : Bool × Entry :=
  if (slotAttrib parent.entry) / 16 % 2 = 0 then (false, first)
  else
    (true,
      { first with
        root := le16 (parent.entry.getD 26 0) (parent.entry.getD 27 0)
        cursor_record := 0 })

/-- Right-trim of ASCII space padding (the pop_back loops at lines 42-44 and 246). -/
def trimSpaces (l : List Nat) : List Nat :=
  (l.reverse.dropWhile (fun b => b = 32)).reverse

/-- FundamentalEntry::get_entry_type_from_filename (lines 49-58), as a tag:
3 UNUSED (first byte 0x00), 2 DELETED (0xE5), 1 DIRECTORY (0x2E), 0 FILE. -/
def entry_type_from_filename (r : List Nat) : Nat :=
  if r.getD 0 0 = 0 then 3
  else if r.getD 0 0 = 229 then 2
  else if r.getD 0 0 = 46 then 1
  else 0

/-- FundamentalEntry::get_filename (lines 24-47) on the raw 32-byte slot.  The
std::string constructor scans the packed record from the filename field up to
the first 0 byte (the embedding bounds the scan at the record; scanning past it
is out of the struct); the result is truncated to 8 bytes, loses its first byte
when the entry type is not FILE, has a leading 0x05 byte rewritten to 0xE5, and
is right-trimmed of spaces. -/
def fundamental_get_filename (r : List Nat) : List Nat :=
  let f0 := r.takeWhile (fun b => b ≠ 0)
  let f1 := if 8 < f0.length then f0.take 8 else f0
  let f2 := if entry_type_from_filename r ≠ 0 ∧ 0 < f1.length then f1.drop 1 else f1
  let f3 := if 0 < f2.length ∧ f2.getD 0 0 = 5 then 229 :: f2.drop 1 else f2
  trimSpaces f3

/-- Widening of one narrow char to char16_t in
std::u16string(final_name.begin(), final_name.end()) at line 248: char is
8-bit signed on the targets of this code, so a byte at or above 0x80 holds a
negative value and converts to char16_t modulo 2^16, landing at 0xFF00 + byte. -/
def widenChar (b : Nat) : Nat := if 128 ≤ b then 65280 + b else b

/-- The empty-accumulator branch of Entry::get_filename (lines 244-248): the
fundamental name, plus the three extension bytes verbatim, right-trimmed of
spaces and widened char-by-char to UTF-16 code units. -/
def entry_get_filename_83 (r : List Nat) : List Nat :=
  (trimSpaces (fundamental_get_filename r ++ (r.drop 8).take 3)).map widenChar

/-- The boot-block fields as decoded from the first `cnt` bytes the constructor
read (packed offsets 11, 13, 14, 16, 17 and 22 of the 512-byte boot sector);
bytes the short read did not deliver are indeterminate stack memory, modelled
as 0 (no theorem below depends on them). -/
def decodeBootBlock (img : Img) (cnt : Nat) : BootBlock :=
  let at_ := fun i => if i < cnt then img.byte i % 256 else 0
  { bytes_per_block := le16 (at_ 11) (at_ 12)
    num_blocks_per_allocation_unit := at_ 13
    num_reserved_blocks := le16 (at_ 14) (at_ 15)
    num_fat := at_ 16
    num_root_dirs := le16 (at_ 17) (at_ 18)
    num_blocks_per_fat := le16 (at_ 22) (at_ 23) }

/-- The Image constructor (lines 194-202): seek to 0, read 512 bytes into the
boot block.  The short-read branch at line 199 is an empty `// TODO:` comment,
and no geometry field is inspected, so no input is ever rejected: the first
component (the error signal) is `none` for every image.  Result:
(error signal, decoded boot block, count the boot-block read delivered). -/
def image_ctor (img : Img) : Option Unit × BootBlock × Nat :=
  let cnt := readCount img 0 512
  (none, decodeBootBlock img cnt, cnt)

/-- The per-read plan of the corrected cluster-reader description: every
iteration, the first included, reads at
`data_region_start + co + (cluster - 2) * bytes_per_cluster` (uint32_t
arithmetic, `co` never dropped) with requested length
`min bytes_per_cluster remaining`, the next cluster coming from the FAT
lookup.  Listed as (seek position, requested length) pairs. -/
def readPlan (img : Img) (bb : BootBlock) (co : Nat) :
    Nat → Nat → Nat → List (Nat × Nat)
  | 0, _cluster, _left => []
  | n + 1, cluster, left =>
    ((data_region_start bb + co + sub32 cluster 2 * bytes_per_cluster bb) % U32,
      min (bytes_per_cluster bb) left)
      :: readPlan img bb co n (succ_val img bb cluster) (left - min (bytes_per_cluster bb) left)

/-- Boot block of scenarios S1, S2, S3: 512 bytes per block, 1 block per
allocation unit, 1 reserved block, 2 FATs of 16 blocks, 512 root records. -/
def bbStd : BootBlock :=
  { bytes_per_block := 512, num_blocks_per_allocation_unit := 1,
    num_reserved_blocks := 1, num_fat := 2, num_root_dirs := 512,
    num_blocks_per_fat := 16 }

/-- Boot block of scenario S6: as bbStd but 2 blocks per allocation unit
(1024 bytes per cluster). -/
def bbS6 : BootBlock :=
  { bytes_per_block := 512, num_blocks_per_allocation_unit := 2,
    num_reserved_blocks := 1, num_fat := 2, num_root_dirs := 512,
    num_blocks_per_fat := 16 }

/-- Boot block with a small root directory (16 records), for the subdirectory
bound scenario. -/
def bbSmallRoot : BootBlock :=
  { bytes_per_block := 512, num_blocks_per_allocation_unit := 1,
    num_reserved_blocks := 1, num_fat := 2, num_root_dirs := 16,
    num_blocks_per_fat := 16 }

/-- A 40000-byte image whose FAT (region start 512) holds the chains
3 -> 4 -> 0xFFFF (entries at offsets 518 and 520) and 5 -> 0xFFF8 (entry at
offset 522); every other byte is 0. -/
def fatImg : Img :=
  { size := 40000
    byte := fun i =>
      if i = 518 then 4
      else if i = 520 then 255
      else if i = 521 then 255
      else if i = 522 then 248
      else if i = 523 then 255
      else 0 }

/-- A 40000-byte image whose root directory region (start 16896 under bbStd)
holds an LFN slot with sequence byte 0x42, an LFN slot with sequence byte 0x01,
and then the 8.3 record HELLO   TXT with the archive attribute. -/
def dirImg : Img :=
  { size := 40000
    byte := fun i =>
      if i = 16896 then 66
      else if i = 16907 then 15
      else if i = 16928 then 1
      else if i = 16939 then 15
      else if i = 16960 then 72
      else if i = 16961 then 69
      else if i = 16962 then 76
      else if i = 16963 then 76
      else if i = 16964 then 79
      else if i = 16965 then 32
      else if i = 16966 then 32
      else if i = 16967 then 32
      else if i = 16968 then 84
      else if i = 16969 then 88
      else if i = 16970 then 84
      else if i = 16971 then 32
      else 0 }

/-- An image of only 100 zero bytes: the boot-block read comes up short. -/
def shortImg : Img := { size := 100, byte := fun _ => 0 }

/-- A 1000-byte all-zero image: the boot block reads in full but decodes
bytes-per-block 0 and blocks-per-allocation-unit 0. -/
def zeroImg : Img := { size := 1000, byte := fun _ => 0 }

/-- A subdirectory cursor (root cluster 5) whose cursor_record already sits at
record 16 of the directory, i.e. at num_root_dirs * 32 of bbSmallRoot. -/
def eAtBound : Entry :=
  { cursor_record := 512, root := 5, extended_entries := [], entry := [] }

/-- A fresh root-directory cursor; the stale accumulator content checks that
one get_next_entry call starts by clearing it. -/
def eRootStart : Entry :=
  { cursor_record := 0, root := 0, extended_entries := [[9]], entry := [] }

/-- The raw bytes of the first LFN slot of dirImg (sequence byte 0x42). -/
def lfnSlotA : List Nat :=
  [66, 0, 0, 0, 0, 0, 0, 0, 0, 0, 0, 15, 0, 0, 0, 0,
   0, 0, 0, 0, 0, 0, 0, 0, 0, 0, 0, 0, 0, 0, 0, 0]

/-- The raw bytes of the second LFN slot of dirImg (sequence byte 0x01). -/
def lfnSlotB : List Nat :=
  [1, 0, 0, 0, 0, 0, 0, 0, 0, 0, 0, 15, 0, 0, 0, 0,
   0, 0, 0, 0, 0, 0, 0, 0, 0, 0, 0, 0, 0, 0, 0, 0]

/-- The raw bytes of the 8.3 slot HELLO   TXT of dirImg (archive attribute). -/
def slotHello : List Nat :=
  [72, 69, 76, 76, 79, 32, 32, 32, 84, 88, 84, 32, 0, 0, 0, 0,
   0, 0, 0, 0, 0, 0, 0, 0, 0, 0, 0, 0, 0, 0, 0, 0]

/-- The raw bytes of the S5 record: filename 0x05 A B C followed by four
spaces, extension TXT, all remaining fields zero. -/
def slotS5 : List Nat :=
  [5, 65, 66, 67, 32, 32, 32, 32, 84, 88, 84, 0, 0, 0, 0, 0,
   0, 0, 0, 0, 0, 0, 0, 0, 0, 0, 0, 0, 0, 0, 0, 0]

theorem succ_val_fst (img : Img) (bb : BootBlock) (cursor target : Nat) :
    (get_successor_cluster img bb cursor target).1 = succ_val img bb target := by
  by_cases h : readCount img ((fat_region_start bb + target * 2) % U32) 2 = 2 <;>
    simp [get_successor_cluster, succ_val, h]

theorem rfcLoop_plan (img : Img) (bb : BootBlock) (co : Nat) :
    ∀ (fuel cluster left cur : Nat),
      ((rfcLoop img bb ((data_region_start bb + co) % U32) fuel cluster left cur).2.2).map
          (fun e => (e.1, e.2.1)) =
        readPlan img bb co fuel cluster left := by
  intro fuel
  induction fuel with
  | zero => intro cluster left cur; rfl
  | succ n ih =>
    intro cluster left cur
    simp only [rfcLoop, readPlan, List.map_cons, List.cons.injEq, Prod.mk.injEq]
    refine ⟨⟨Nat.mod_add_mod _ _ _, trivial⟩, ?_⟩
    rw [succ_val_fst]
    exact ih _ _ _

theorem lfnLoop_cr (img : Img) (bb : BootBlock) (rds root : Nat) :
    ∀ (fuel cr cur : Nat) (acc : List (List Nat)),
      ∃ k, (lfnLoop img bb rds root fuel cr cur acc).2.1 = cr + 32 * k := by
  intro fuel
  induction fuel with
  | zero => intro cr cur acc; exact ⟨0, by simp [lfnLoop]⟩
  | succ n ih =>
    intro cr cur acc
    simp only [lfnLoop]
    by_cases h1 : (readRecord img bb root cr cur).2.1 ≠ 32
    · rw [if_pos h1]; exact ⟨0, by simp⟩
    · rw [if_neg h1]
      by_cases h2 : slotAttrib (readRecord img bb root cr cur).1 = 15 ∧
          slotPadding (readRecord img bb root cr cur).1 = 0
      · rw [if_pos h2]
        by_cases h3 : (cr + 32) / 32 ≠ bb.num_root_dirs
        · rw [if_pos h3]
          obtain ⟨k, hk⟩ := ih (cr + 32) (readRecord img bb root cr cur).2.2
            (acc ++ [(readRecord img bb root cr cur).1])
          exact ⟨k + 1, by omega⟩
        · rw [if_neg h3]; exact ⟨1, by simp⟩
      · rw [if_neg h2]; exact ⟨0, by simp⟩

/-- C1: corrected.  In read_from_cluster the cluster-local offset `co` is folded
into `offset_start_data_area` once and never removed, so every data read of the
loop, not only the first, seeks to
`data_region_start + (cluster - 2) * bytes_per_cluster + co`, and every read,
the first included, requests `min bytes_per_cluster remaining` bytes with no
`co` subtraction; the successor of each cluster comes from the FAT lookup.
Concretely, with chain 3 -> 4 -> 0xFFFF, bytes_per_cluster 512 and
data_region_start 33280, read_from_cluster(dest, 500, 3, 100) issues the single
read of 100 bytes at 33280 + 512 + 500 = 34292 and returns 100. -/
theorem read_from_cluster_trace_spec (img : Img) (bb : BootBlock)
    (cursor offset starting_cluster size fuel cluster left cur : Nat)
    (hb : 0 < bb.bytes_per_block) (hs : 0 < bb.num_blocks_per_allocation_unit)
    (hf : total_cluster_to_read bb size ≤ 255) :
    read_from_cluster img bb cursor offset starting_cluster size =
      (size -
        (rfcLoop img bb ((data_region_start bb + offset % bytes_per_cluster bb) % U32)
          (total_cluster_to_read bb size)
          (walkChain img bb (offset / bb.bytes_per_block / bb.num_blocks_per_allocation_unit)
            (starting_cluster, cursor)).1 size
          ((data_region_start bb + offset % bytes_per_cluster bb) % U32)).1,
       (rfcLoop img bb ((data_region_start bb + offset % bytes_per_cluster bb) % U32)
          (total_cluster_to_read bb size)
          (walkChain img bb (offset / bb.bytes_per_block / bb.num_blocks_per_allocation_unit)
            (starting_cluster, cursor)).1 size
          ((data_region_start bb + offset % bytes_per_cluster bb) % U32)).2.1,
       (rfcLoop img bb ((data_region_start bb + offset % bytes_per_cluster bb) % U32)
          (total_cluster_to_read bb size)
          (walkChain img bb (offset / bb.bytes_per_block / bb.num_blocks_per_allocation_unit)
            (starting_cluster, cursor)).1 size
          ((data_region_start bb + offset % bytes_per_cluster bb) % U32)).2.2) ∧
    ((rfcLoop img bb ((data_region_start bb + offset % bytes_per_cluster bb) % U32)
        fuel cluster left cur).2.2).map (fun e => (e.1, e.2.1)) =
      readPlan img bb (offset % bytes_per_cluster bb) fuel cluster left ∧
    read_from_cluster fatImg bbStd 0 500 3 100 = (100, 34392, [(34292, 100, 100)]) := by
  refine ⟨rfl, ?_, by decide⟩
  exact rfcLoop_plan img bb (offset % bytes_per_cluster bb) fuel cluster left cur

theorem read_from_cluster_trace_spec_inst :
    0 < bbStd.bytes_per_block ∧ 0 < bbStd.num_blocks_per_allocation_unit ∧
      total_cluster_to_read bbStd 100 ≤ 255 ∧
      (read_from_cluster fatImg bbStd 0 500 3 100 =
        (100 -
          (rfcLoop fatImg bbStd ((data_region_start bbStd + 500 % bytes_per_cluster bbStd) % U32)
            (total_cluster_to_read bbStd 100)
            (walkChain fatImg bbStd
              (500 / bbStd.bytes_per_block / bbStd.num_blocks_per_allocation_unit) (3, 0)).1 100
            ((data_region_start bbStd + 500 % bytes_per_cluster bbStd) % U32)).1,
         (rfcLoop fatImg bbStd ((data_region_start bbStd + 500 % bytes_per_cluster bbStd) % U32)
            (total_cluster_to_read bbStd 100)
            (walkChain fatImg bbStd
              (500 / bbStd.bytes_per_block / bbStd.num_blocks_per_allocation_unit) (3, 0)).1 100
            ((data_region_start bbStd + 500 % bytes_per_cluster bbStd) % U32)).2.1,
         (rfcLoop fatImg bbStd ((data_region_start bbStd + 500 % bytes_per_cluster bbStd) % U32)
            (total_cluster_to_read bbStd 100)
            (walkChain fatImg bbStd
              (500 / bbStd.bytes_per_block / bbStd.num_blocks_per_allocation_unit) (3, 0)).1 100
            ((data_region_start bbStd + 500 % bytes_per_cluster bbStd) % U32)).2.2) ∧
      ((rfcLoop fatImg bbStd ((data_region_start bbStd + 500 % bytes_per_cluster bbStd) % U32)
          1 3 100 33780).2.2).map (fun e => (e.1, e.2.1)) =
        readPlan fatImg bbStd (500 % bytes_per_cluster bbStd) 1 3 100 ∧
      read_from_cluster fatImg bbStd 0 500 3 100 = (100, 34392, [(34292, 100, 100)])) :=
  ⟨by decide, by decide, by decide,
    read_from_cluster_trace_spec fatImg bbStd 0 500 3 100 1 3 100 33780
      (by decide) (by decide) (by decide)⟩

/-- C1 counterexample: at the S3 input the trace is one read of 100 bytes at
34292, not 12 bytes followed by 88 bytes, neither at the literal offsets of the
claim (data_region_start + 500 and + 512) nor at the offsets of its general
formula (34292 and 34304). -/
theorem read_from_cluster_s3_not_split :
    ((read_from_cluster fatImg bbStd 0 500 3 100).2.2).map (fun e => (e.1, e.2.1)) =
        [(34292, 100)] ∧
      ((read_from_cluster fatImg bbStd 0 500 3 100).2.2).map (fun e => (e.1, e.2.1)) ≠
        [(33780, 12), (33792, 88)] ∧
      ((read_from_cluster fatImg bbStd 0 500 3 100).2.2).map (fun e => (e.1, e.2.1)) ≠
        [(34292, 12), (34304, 88)] := by
  refine ⟨by decide, by decide, by decide⟩

/-- C2: the loop of read_from_cluster never inspects the cluster value, so the
chain 5 -> 0xFFF8 with bytes_per_cluster 1024 and request size 2000 runs both
precomputed iterations: after 1024 bytes delivered from cluster 5 it seeks to
the data offset of the end-of-chain sentinel value 0xFFF8 (67131904, past the
image), the source delivers 0 bytes there, and the call still returns 2000 —
not the 1024 the claim requires, and more than the source delivered. -/
theorem read_from_cluster_s6_ignores_chain_end :
    read_from_cluster fatImg bbS6 0 0 5 2000 =
        (2000, 131568, [(36352, 1024, 1024), (67131904, 976, 0)]) ∧
      succ_val fatImg bbS6 5 = 65528 := by
  refine ⟨by decide, by decide⟩

/-- C3: corrected.  The cursor after get_successor_cluster equals the saved
cursor only on the success path; on the short-read path the early return skips
the restoring seek and the cursor stays at the FAT-entry offset plus the bytes
the failed read delivered. -/
theorem get_successor_cluster_cursor_spec (img : Img) (bb : BootBlock) (cursor target : Nat) :
    (get_successor_cluster img bb cursor target).2 =
      if readCount img ((fat_region_start bb + target * 2) % U32) 2 = 2 then cursor
      else (fat_region_start bb + target * 2) % U32 +
        readCount img ((fat_region_start bb + target * 2) % U32) 2 := by
  by_cases h : readCount img ((fat_region_start bb + target * 2) % U32) 2 = 2 <;>
    simp [get_successor_cluster, h]

/-- C3 counterexample: on a 100-byte image the FAT read for cluster 100 (offset
712) is short; the call returns 0 but the cursor, 3 before the call, is left at
712. -/
theorem get_successor_cluster_short_read_moves_cursor :
    get_successor_cluster shortImg bbStd 3 100 = (0, 712) ∧ (712 : Nat) ≠ 3 := by
  refine ⟨by decide, by decide⟩

/-- C4: corrected.  The record-count guard of line 132 runs before the root
field is consulted, so it bounds every directory: whenever cursor_record / 32
is at least num_root_dirs, get_next_entry returns false immediately and leaves
the entry and the image cursor untouched, for subdirectories exactly as for the
root. -/
theorem get_next_entry_bound_all_dirs (img : Img) (bb : BootBlock) (e : Entry) (cursor : Nat)
    (h : bb.num_root_dirs ≤ e.cursor_record / 32) :
    get_next_entry img bb e cursor = (false, e, cursor) := by
  simp [get_next_entry, h]

theorem get_next_entry_bound_all_dirs_inst :
    bbSmallRoot.num_root_dirs ≤
        (Entry.mk 1024 7 [] []).cursor_record / 32 ∧
      get_next_entry fatImg bbSmallRoot (Entry.mk 1024 7 [] []) 999 =
        (false, Entry.mk 1024 7 [] [], 999) :=
  ⟨by decide, get_next_entry_bound_all_dirs fatImg bbSmallRoot (Entry.mk 1024 7 [] []) 999
    (by decide)⟩

/-- C4 counterexample: a subdirectory cursor (root cluster 5) whose
cursor_record is exactly num_root_dirs * 32 = 512 makes get_next_entry return
false by itself, before any read. -/
theorem get_next_entry_subdir_stops_at_root_bound :
    eAtBound.root ≠ 0 ∧ eAtBound.cursor_record = bbSmallRoot.num_root_dirs * 32 ∧
      get_next_entry fatImg bbSmallRoot eAtBound 777 = (false, eAtBound, 777) := by
  refine ⟨by decide, by decide, by decide⟩

/-- C5: the constructor reads the boot block but its short-read branch is an
empty TODO and no geometry field is validated, so no input is rejected: on a
100-byte image the read delivers 100 of 512 bytes and construction still
signals no error, and on an all-zero 1000-byte image both bytes-per-block and
blocks-per-allocation-unit decode to 0 and construction still signals no
error.  MalformedBootBlock does not exist in the sources. -/
theorem image_ctor_never_fails :
    (image_ctor shortImg).1 = none ∧ (image_ctor shortImg).2.2 = 100 ∧
      (image_ctor zeroImg).1 = none ∧ (image_ctor zeroImg).2.2 = 512 ∧
      (image_ctor zeroImg).2.1.bytes_per_block = 0 ∧
      (image_ctor zeroImg).2.1.num_blocks_per_allocation_unit = 0 := by
  refine ⟨by decide, by decide, by decide, by decide, by decide, by decide⟩

/-- C6: one get_next_entry call on the slot sequence [LFN seq 0x42, LFN seq
0x01, 8.3 HELLO   TXT] returns true with the two LFN slots, in on-disk order,
as the accumulator (the stale accumulator content having been cleared), the
8.3 slot as the fundamental record, and cursor_record advanced by 96. -/
theorem get_next_entry_lfn_s4 :
    get_next_entry dirImg bbStd eRootStart 0 =
      (true, Entry.mk 96 0 [lfnSlotA, lfnSlotB] slotHello, 16992) := by
  decide

/-- C7: corrected.  The 8.3 decode replaces a leading 0x05 byte with 0xE5,
right-trims space padding, appends the three extension bytes and trims again —
at byte level the S5 record yields 0xE5 A B C T X T — but the final widening
to UTF-16 code units converts each narrow char as a signed 8-bit value, so the
0xE5 byte sign-extends to 0xFFE5 = 65509 rather than staying 0xE5. -/
theorem entry_filename_s5_sign_extended :
    entry_get_filename_83 slotS5 = [65509, 65, 66, 67, 84, 88, 84] ∧
      fundamental_get_filename slotS5 = [229, 65, 66, 67] := by
  refine ⟨by decide, by decide⟩

/-- C7 counterexample: the decoded UTF-16 code units of the S5 record are not
the claimed sequence 0xE5 A B C T X T. -/
theorem entry_filename_s5_claim_false :
    entry_get_filename_83 slotS5 ≠ [229, 65, 66, 67, 84, 88, 84] := by
  decide

/-- C8: the derived geometry satisfies the four region equations whenever the
derived offsets fit in 32 bits (the invariant the spec assumes), and on the S1
boot block the regions are 512, 16896 and 33280. -/
theorem boot_block_geometry (bb : BootBlock)
    (h1 : bb.num_reserved_blocks * bb.bytes_per_block +
        bb.num_fat * bb.num_blocks_per_fat * bb.bytes_per_block +
        bb.num_root_dirs * 32 < U32)
    (h2 : bb.bytes_per_block * bb.num_blocks_per_allocation_unit < U32) :
    fat_region_start bb = bb.num_reserved_blocks * bb.bytes_per_block ∧
      root_directory_region_start bb = bb.num_reserved_blocks * bb.bytes_per_block +
        bb.num_fat * bb.num_blocks_per_fat * bb.bytes_per_block ∧
      data_region_start bb = bb.num_reserved_blocks * bb.bytes_per_block +
        bb.num_fat * bb.num_blocks_per_fat * bb.bytes_per_block + bb.num_root_dirs * 32 ∧
      bytes_per_cluster bb = bb.bytes_per_block * bb.num_blocks_per_allocation_unit ∧
      fat_region_start bbStd = 512 ∧ root_directory_region_start bbStd = 16896 ∧
      data_region_start bbStd = 33280 := by
  refine ⟨?_, ?_, ?_, ?_, by decide, by decide, by decide⟩ <;>
    · simp only [fat_region_start, root_directory_region_start, data_region_start,
        bytes_per_cluster, U32] at *
      omega

theorem boot_block_geometry_inst :
    (bbStd.num_reserved_blocks * bbStd.bytes_per_block +
        bbStd.num_fat * bbStd.num_blocks_per_fat * bbStd.bytes_per_block +
        bbStd.num_root_dirs * 32 < U32) ∧
      (bbStd.bytes_per_block * bbStd.num_blocks_per_allocation_unit < U32) ∧
      (fat_region_start bbStd = bbStd.num_reserved_blocks * bbStd.bytes_per_block ∧
        root_directory_region_start bbStd = bbStd.num_reserved_blocks * bbStd.bytes_per_block +
          bbStd.num_fat * bbStd.num_blocks_per_fat * bbStd.bytes_per_block ∧
        data_region_start bbStd = bbStd.num_reserved_blocks * bbStd.bytes_per_block +
          bbStd.num_fat * bbStd.num_blocks_per_fat * bbStd.bytes_per_block +
          bbStd.num_root_dirs * 32 ∧
        bytes_per_cluster bbStd = bbStd.bytes_per_block * bbStd.num_blocks_per_allocation_unit ∧
        fat_region_start bbStd = 512 ∧ root_directory_region_start bbStd = 16896 ∧
        data_region_start bbStd = 33280) :=
  ⟨by decide, by decide, boot_block_geometry bbStd (by decide) (by decide)⟩

/-- C9: every get_next_entry call that returns true leaves cursor_record
strictly greater than before, the difference a positive multiple of 32 (32 per
consumed LFN record plus 32 for the fundamental record). -/
theorem get_next_entry_monotone (img : Img) (bb : BootBlock) (e : Entry) (cursor : Nat)
    (h : (get_next_entry img bb e cursor).1 = true) :
    e.cursor_record < (get_next_entry img bb e cursor).2.1.cursor_record ∧
      ((get_next_entry img bb e cursor).2.1.cursor_record - e.cursor_record) % 32 = 0 := by
  by_cases hb : bb.num_root_dirs ≤ e.cursor_record / 32
  · simp [get_next_entry, hb] at h
  · simp only [get_next_entry, if_neg hb] at h ⊢
    by_cases hl : (lfnLoop img bb (root_directory_region_start bb) e.root
        (bb.num_root_dirs - e.cursor_record / 32) e.cursor_record
        ((root_directory_region_start bb + e.cursor_record) % U32) []).1 = false
    · rw [if_pos hl] at h; simp at h
    · rw [if_neg hl] at h ⊢
      by_cases hr : (readRecord img bb e.root
          (lfnLoop img bb (root_directory_region_start bb) e.root
            (bb.num_root_dirs - e.cursor_record / 32) e.cursor_record
            ((root_directory_region_start bb + e.cursor_record) % U32) []).2.1
          (lfnLoop img bb (root_directory_region_start bb) e.root
            (bb.num_root_dirs - e.cursor_record / 32) e.cursor_record
            ((root_directory_region_start bb + e.cursor_record) % U32) []).2.2.1).2.1 ≠ 32
      · rw [if_pos hr] at h; simp at h
      · rw [if_neg hr]
        obtain ⟨k, hk⟩ := lfnLoop_cr img bb (root_directory_region_start bb) e.root
          (bb.num_root_dirs - e.cursor_record / 32) e.cursor_record
          ((root_directory_region_start bb + e.cursor_record) % U32) []
        simp only []
        constructor <;> omega

theorem get_next_entry_monotone_inst :
    (get_next_entry dirImg bbStd eRootStart 0).1 = true ∧
      (eRootStart.cursor_record < (get_next_entry dirImg bbStd eRootStart 0).2.1.cursor_record ∧
        ((get_next_entry dirImg bbStd eRootStart 0).2.1.cursor_record -
          eRootStart.cursor_record) % 32 = 0) :=
  ⟨by decide, get_next_entry_monotone dirImg bbStd eRootStart 0 (by decide)⟩

/-- C10: get_successor_cluster validates nothing: for every cluster index,
reserved values 0 and 1 and out-of-range indices included, the returned value
is the little-endian pair of image bytes at fat_region_start + index * 2
(uint32_t arithmetic) whenever that two-byte read is delivered in full, and 0
on a short read. -/
theorem get_successor_cluster_no_range_check (img : Img) (bb : BootBlock)
    (cursor target : Nat) :
    (get_successor_cluster img bb cursor target).1 =
      if readCount img ((fat_region_start bb + target * 2) % U32) 2 = 2 then
        le16 (img.byte ((fat_region_start bb + target * 2) % U32) % 256)
          (img.byte ((fat_region_start bb + target * 2) % U32 + 1) % 256)
      else 0 := by
  by_cases h : readCount img ((fat_region_start bb + target * 2) % U32) 2 = 2
  · have h2 : List.range 2 = [0, 1] := rfl
    simp [get_successor_cluster, readBytes, h, h2, le16]
  · simp [get_successor_cluster, h]

end Fat16
